import Mathlib

/-!
Shallow embedding of the Aviatrix client-side tag operations
(goaviatrix/tags.go) and the device-registration resource operations,
with the external transport and device-client collaborators abstracted
as explicit outcome parameters.
-/

namespace goaviatrix

/-- The client: only its session token `CID` is used by the modelled code. -/
structure Client where
  CID : String
  deriving DecidableEq, Repr

/-- The `Tags` struct of tags.go: tag details for one resource. -/
structure Tags where
  Action : String
  CID : String
  CloudType : Int
  ResourceType : String
  ResourceName : String
  TagList : String
  Tags : List (String × String)
  TagJson : String
  deriving DecidableEq, Repr

/-- The decoded list-tags response envelope `TagAPIResp`
(`return`, `results` as a map from category to a tag map, `reason`).
Go maps are modelled as association lists. -/
structure TagAPIResp where
  Return : Bool
  Results : List (String × List (String × String))
  Reason : String
  deriving DecidableEq, Repr

/-- Modelled from the spec: `BasicCheck` (goaviatrix client code outside the
given sources) is the shared success predicate interpreting the
return/reason envelope: it accepts iff the `return` flag is true and
otherwise rejects with the controller-supplied `reason` string. -/
def BasicCheck (resp : TagAPIResp) : Option String :=
  if resp.Return then none else some resp.Reason

/-- Modelled from the spec: `GetAPI` (transport collaborator outside the given
sources) executes one round trip decoding into `TagAPIResp` and validates the
decoded response with the success predicate; a transport failure or a
rejected response surfaces as an error. The raw wire outcome is the
argument. -/
def GetAPI (raw : Except String TagAPIResp) : Except String TagAPIResp :=
  match raw with
  | Except.error e => Except.error e
  | Except.ok resp =>
    match BasicCheck resp with
    | some reason => Except.error reason
    | none => Except.ok resp

/-- `strconv.Itoa`: the base-10 decimal string of an integer. -/
def Itoa (n : Int) : String :=
  toString n

/-- The parameter bag built by `GetTags` (the Go map literal, kept as an
association list in the literal's textual order). -/
def GetTagsData (c : Client) (tags : Tags) : List (String × String) :=
  [("action", "list_resource_tags"),
   ("CID", c.CID),
   ("cloud_type", Itoa tags.CloudType),
   ("resource_type", tags.ResourceType),
   ("resource_name", tags.ResourceName)]

/-- What one call of `GetTags` produced: the parameter bag sent, the (possibly
mutated) caller struct, the returned slice (`none` is Go's nil slice) and the
returned error. -/
structure GetTagsResult where
  sent : List (String × String)
  tags : Tags
  tagList : Option (List String)
  err : Option String
  deriving DecidableEq, Repr

/-- One step of the `append(tagList, tagStr)` loop on a possibly-nil slice. -/
def tagListAppend (tagList : Option (List String)) (tagStr : String) :
    Option (List String) :=
  some (tagList.getD [] ++ [tagStr])

/-- `GetTags` of tags.go. The transport outcome of the `GetAPI` call is the
`raw` argument. -/
def GetTags (c : Client) (tags : Tags) (raw : Except String TagAPIResp) :
    GetTagsResult :=
  let data := GetTagsData c tags
  match GetAPI raw with
  | Except.error e => ⟨data, tags, none, some e⟩
  | Except.ok resp =>
    match resp.Results.lookup "usr_tags" with
    | some tagsMap =>
      let tags2 := { tags with Tags := tagsMap }
      let tagList := tagsMap.foldl
        (fun tagList kv => tagListAppend tagList (kv.1 ++ ":" ++ kv.2)) none
      ⟨data, tags2, tagList, none⟩
    | none => ⟨data, tags, none, none⟩

/-- What one `PostAPI` call with a full `Tags` body produced: the action used,
the body posted (also the mutated caller struct) and the returned error. -/
structure PostResult where
  action : String
  body : Tags
  err : Option String
  deriving DecidableEq, Repr

/-- `AddTags` of tags.go: stamps `CID` and the action onto the caller's struct
and posts the full struct. `post` is the transport collaborator's outcome. -/
def AddTags (c : Client) (post : String → Tags → Option String) (tags : Tags) :
    PostResult :=
  let tags1 := { tags with CID := c.CID }
  let tags2 := { tags1 with Action := "add_resource_tags" }
  ⟨tags2.Action, tags2, post tags2.Action tags2⟩

/-- `UpdateTags` of tags.go: same shape as `AddTags` with the update action. -/
def UpdateTags (c : Client) (post : String → Tags → Option String)
    (tags : Tags) : PostResult :=
  let tags1 := { tags with CID := c.CID }
  let tags2 := { tags1 with Action := "update_resource_tags" }
  ⟨tags2.Action, tags2, post tags2.Action tags2⟩

/-- The common shape both `AddTags` and `UpdateTags` instantiate: stamp `CID`
and the given action, post the full struct. -/
def postTagsStruct (action : String) (c : Client)
    (post : String → Tags → Option String) (tags : Tags) : PostResult :=
  let tags2 := { tags with CID := c.CID, Action := action }
  ⟨tags2.Action, tags2, post tags2.Action tags2⟩

/-- The parameter map built by `DeleteTags` (the Go map literal, kept in the
literal's textual order). -/
def DeleteTagsParams (c : Client) (tags : Tags) : List (String × String) :=
  [("action", "delete_resource_tag"),
   ("CID", c.CID),
   ("cloud_type", Itoa tags.CloudType),
   ("del_tag_list", tags.TagList),
   ("resource_name", tags.ResourceName),
   ("resource_type", tags.ResourceType)]

/-- What one `DeleteTags` call produced: the action used, the parameter map
posted and the returned error. -/
structure DeletePostResult where
  action : String
  params : List (String × String)
  err : Option String
  deriving DecidableEq, Repr

/-- `DeleteTags` of tags.go: posts the parameter map; returns only the
transport's error. -/
def DeleteTags (c : Client)
    (post : String → List (String × String) → Option String) (tags : Tags) :
    DeletePostResult :=
  let params := DeleteTagsParams c tags
  let action := (params.lookup "action").getD ""
  ⟨action, params, post action params⟩

/-- The `Device` struct (goaviatrix device client). -/
structure Device where
  Name : String
  PublicIP : String
  Username : String
  KeyFile : String
  Password : String
  HostOS : String
  SshPort : Int
  SshPortStr : String
  Address1 : String
  Address2 : String
  City : String
  State : String
  Country : String
  ZipCode : String
  Description : String
  SoftwareVersion : String
  IsCaag : Bool
  deriving DecidableEq, Repr

/-- The Go zero value of `Device`: the fields a composite literal omits. -/
def emptyDevice : Device :=
  ⟨"", "", "", "", "", "", 0, "", "", "", "", "", "", "", "", "", false⟩

/-- The `Gateway` fields used by the upgrade call. -/
structure Gateway where
  GwName : String
  SoftwareVersion : String
  deriving DecidableEq, Repr

end goaviatrix

namespace aviatrix

open goaviatrix

/-- The schema fields of the device-registration resource plus the resource
Id and the `HasChange("software_version")` diff flag the update handler
reads. -/
structure ResourceData where
  id : String
  name : String
  public_ip : String
  username : String
  key_file : String
  password : String
  host_os : String
  ssh_port : Int
  address_1 : String
  address_2 : String
  city : String
  state : String
  country : String
  zip_code : String
  description : String
  software_version : String
  is_caag : Bool
  hasChangeSoftwareVersion : Bool
  deriving DecidableEq, Repr

/-- `marshalDeviceRegistrationInput`: marshals the ResourceData into a Device
struct; fields the Go literal omits get their zero values. -/
def marshalDeviceRegistrationInput (d : ResourceData) : Device :=
  { Name := d.name
    PublicIP := d.public_ip
    Username := d.username
    KeyFile := d.key_file
    Password := d.password
    HostOS := d.host_os
    SshPort := d.ssh_port
    SshPortStr := Itoa d.ssh_port
    Address1 := d.address_1
    Address2 := d.address_2
    City := d.city
    State := d.state
    Country := d.country
    ZipCode := d.zip_code
    Description := d.description
    SoftwareVersion := ""
    IsCaag := false }

/-- A call issued to the controller through the goaviatrix client. -/
inductive ApiCall where
  | registerDevice (dev : Device)
  | getDevice (dev : Device)
  | updateDevice (dev : Device)
  | deregisterDevice (dev : Device)
  | upgradeGateway (gw : Gateway)
  deriving DecidableEq, Repr

/-- The outcome of the external `GetDevice` lookup: the distinguished
`ErrNotFound`, another error, or the controller's device record. -/
inductive GetDeviceResult where
  | notFound
  | err (e : String)
  | found (dev : Device)
  deriving DecidableEq, Repr

/-- What one resource operation produced: the final resource state, the
returned error, and the controller calls issued (in order). -/
structure ResourceOpResult where
  state : ResourceData
  err : Option String
  calls : List ApiCall
  deriving DecidableEq, Repr

/-- `resourceAviatrixDeviceRegistrationCreate`; `registerResult` is the
outcome of the external `RegisterDevice` call. -/
def resourceAviatrixDeviceRegistrationCreate (d : ResourceData)
    (registerResult : Option String) : ResourceOpResult :=
  let device := marshalDeviceRegistrationInput d
  match registerResult with
  | some e => ⟨d, some ("could not register device: " ++ e),
      [ApiCall.registerDevice device]⟩
  | none => ⟨{ d with id := device.Name }, none,
      [ApiCall.registerDevice device]⟩

/-- The name the read handler looks up: the `name` field, or the existing Id
when `name` is empty (import). -/
def readLookupName (d : ResourceData) : String :=
  if d.name = "" then d.id else d.name

/-- The `Device` struct literal the read handler passes to `GetDevice`: only
`Name` is populated. -/
def readLookupDevice (d : ResourceData) : Device :=
  { emptyDevice with Name := readLookupName d }

/-- `resourceAviatrixDeviceRegistrationRead`; `getResult` is the outcome of
the external `GetDevice` call. -/
def resourceAviatrixDeviceRegistrationRead (d : ResourceData)
    (getResult : GetDeviceResult) : ResourceOpResult :=
  let name := readLookupName d
  let d0 := if d.name = "" then { d with id := d.id } else d
  let device := readLookupDevice d
  match getResult with
  | GetDeviceResult.notFound => ⟨{ d0 with id := "" }, none,
      [ApiCall.getDevice device]⟩
  | GetDeviceResult.err e =>
    ⟨d0, some ("could not find device " ++ name ++ ": " ++ e),
      [ApiCall.getDevice device]⟩
  | GetDeviceResult.found dev =>
    ⟨{ d0 with
        name := dev.Name
        public_ip := dev.PublicIP
        username := dev.Username
        host_os := dev.HostOS
        ssh_port := dev.SshPort
        address_1 := dev.Address1
        address_2 := dev.Address2
        city := dev.City
        state := dev.State
        country := dev.Country
        zip_code := dev.ZipCode
        description := dev.Description
        software_version := dev.SoftwareVersion
        is_caag := dev.IsCaag
        id := dev.Name }, none,
      [ApiCall.getDevice device]⟩

/-- `resourceAviatrixDeviceRegistrationUpdate`; `updateResult` and
`upgradeResult` are the outcomes of the external `UpdateDevice` and
`UpgradeGateway` calls. -/
def resourceAviatrixDeviceRegistrationUpdate (d : ResourceData)
    (updateResult : Option String) (upgradeResult : Option String) :
    ResourceOpResult :=
  let device := marshalDeviceRegistrationInput d
  match updateResult with
  | some e =>
    ⟨d, some ("could not update device registration information: " ++ e),
      [ApiCall.updateDevice device]⟩
  | none =>
    if d.hasChangeSoftwareVersion then
      if d.is_caag = false then
        ⟨d,
          some "'software_version' can only be updated for managed cloudN (CaaG) devices",
          [ApiCall.updateDevice device]⟩
      else
        let softwareVersion := d.software_version
        let gw : Gateway := ⟨device.Name, softwareVersion⟩
        match upgradeResult with
        | some e => ⟨d, some ("could not upgrade CaaG: " ++ e),
            [ApiCall.updateDevice device, ApiCall.upgradeGateway gw]⟩
        | none => ⟨{ d with id := device.Name }, none,
            [ApiCall.updateDevice device, ApiCall.upgradeGateway gw]⟩
    else
      ⟨{ d with id := device.Name }, none, [ApiCall.updateDevice device]⟩

/-- `resourceAviatrixDeviceRegistrationDelete`; `deregisterResult` is the
outcome of the external `DeregisterDevice` call. -/
def resourceAviatrixDeviceRegistrationDelete (d : ResourceData)
    (deregisterResult : Option String) : ResourceOpResult :=
  let br := marshalDeviceRegistrationInput d
  match deregisterResult with
  | some e => ⟨d, some ("could not deregister device: " ++ e),
      [ApiCall.deregisterDevice br]⟩
  | none => ⟨{ d with id := br.Name }, none, [ApiCall.deregisterDevice br]⟩

end aviatrix

namespace goaviatrix

/-- A concrete client used to instantiate theorems with hypotheses. -/
def cW : Client := ⟨"sessionCID"⟩

/-- A concrete `Tags` input. -/
def tagsW : Tags := ⟨"", "", 4, "mc_instance", "vm1", "", [], ""⟩

/-- A concrete accepted response carrying one user tag. -/
def respW : TagAPIResp := ⟨true, [("usr_tags", [("k", "v")])], ""⟩

/-- A concrete accepted response with no `usr_tags` category. -/
def respEmptyW : TagAPIResp := ⟨true, [("other", [("a", "b")])], ""⟩

theorem tagListAppend_foldl (m : List (String × String))
    (acc : Option (List String)) :
    (m.foldl (fun tagList kv => tagListAppend tagList (kv.1 ++ ":" ++ kv.2))
        acc).getD []
      = acc.getD [] ++ m.map (fun kv => kv.1 ++ ":" ++ kv.2) := by
  induction m generalizing acc with
  | nil => simp
  | cons kv t ih =>
    rw [List.foldl_cons, ih]
    simp [tagListAppend]

/-- C2: on an accepted response whose results map binds "usr_tags" to M,
`GetTags` sets the caller's `Tags` field to M, returns a nil error, and the
returned list's elements are exactly the strings key ++ ":" ++ value over
the pairs of M. -/
theorem GetTags_usr_tags_extraction (c : Client) (tags : Tags)
    (resp : TagAPIResp) (M : List (String × String))
    (hret : resp.Return = true)
    (husr : resp.Results.lookup "usr_tags" = some M) :
    (GetTags c tags (Except.ok resp)).tags.Tags = M ∧
    (GetTags c tags (Except.ok resp)).err = none ∧
    (∀ s : String,
      s ∈ ((GetTags c tags (Except.ok resp)).tagList).getD [] ↔
        ∃ p ∈ M, s = p.1 ++ ":" ++ p.2) := by
  refine ⟨?_, ?_, ?_⟩ <;>
    simp [GetTags, GetAPI, BasicCheck, hret, husr, tagListAppend_foldl,
      eq_comm]

/-- C2 witness: the theorem at a concrete client, struct and response. -/
theorem GetTags_usr_tags_extraction_witness :
    (GetTags cW tagsW (Except.ok respW)).tags.Tags = [("k", "v")] ∧
    (GetTags cW tagsW (Except.ok respW)).err = none ∧
    "k:v" ∈ ((GetTags cW tagsW (Except.ok respW)).tagList).getD [] :=
  ⟨(GetTags_usr_tags_extraction cW tagsW respW [("k", "v")] rfl rfl).1,
   (GetTags_usr_tags_extraction cW tagsW respW [("k", "v")] rfl rfl).2.1,
   ((GetTags_usr_tags_extraction cW tagsW respW [("k", "v")] rfl
      rfl).2.2 "k:v").mpr ⟨("k", "v"), by simp, by simp⟩⟩

/-- C3: on an accepted response whose results map has no "usr_tags" key,
`GetTags` returns a nil list and a nil error and leaves the caller's struct
unchanged. -/
theorem GetTags_no_usr_tags (c : Client) (tags : Tags) (resp : TagAPIResp)
    (hret : resp.Return = true)
    (husr : resp.Results.lookup "usr_tags" = none) :
    (GetTags c tags (Except.ok resp)).tagList = none ∧
    (GetTags c tags (Except.ok resp)).err = none ∧
    (GetTags c tags (Except.ok resp)).tags = tags := by
  refine ⟨?_, ?_, ?_⟩ <;> simp [GetTags, GetAPI, BasicCheck, hret, husr]

/-- C3 witness: the theorem at a concrete response without "usr_tags". -/
theorem GetTags_no_usr_tags_witness :
    (GetTags cW tagsW (Except.ok respEmptyW)).tagList = none ∧
    (GetTags cW tagsW (Except.ok respEmptyW)).err = none ∧
    (GetTags cW tagsW (Except.ok respEmptyW)).tags = tagsW :=
  GetTags_no_usr_tags cW tagsW respEmptyW rfl (by decide)

/-- C5: `GetTags` sends exactly the keys action, CID, cloud_type,
resource_type and resource_name, with action "list_resource_tags", the
session token, the base-10 string of the cloud type, and the resource type
and name; every call sends exactly this bag. -/
theorem GetTags_param_bag (c : Client) (tags : Tags)
    (raw : Except String TagAPIResp) :
    (GetTagsData c tags).map Prod.fst
        = ["action", "CID", "cloud_type", "resource_type", "resource_name"] ∧
    (GetTagsData c tags).lookup "action" = some "list_resource_tags" ∧
    (GetTagsData c tags).lookup "CID" = some c.CID ∧
    (GetTagsData c tags).lookup "cloud_type" = some (Itoa tags.CloudType) ∧
    (GetTagsData c tags).lookup "resource_type" = some tags.ResourceType ∧
    (GetTagsData c tags).lookup "resource_name" = some tags.ResourceName ∧
    (GetTags c tags raw).sent = GetTagsData c tags := by
  refine ⟨rfl, rfl, rfl, rfl, rfl, rfl, ?_⟩
  rcases hG : GetAPI raw with e | resp2
  · simp [GetTags, hG]
  · rcases hL : resp2.Results.lookup "usr_tags" with _ | m <;>
      simp [GetTags, hG, hL]

/-- C6: `DeleteTags` posts exactly the keys action, CID, cloud_type,
del_tag_list, resource_name and resource_type, with action
"delete_resource_tag", and returns the transport's error unchanged. -/
theorem DeleteTags_param_bag (c : Client) (tags : Tags)
    (post : String → List (String × String) → Option String) :
    (DeleteTagsParams c tags).map Prod.fst
        = ["action", "CID", "cloud_type", "del_tag_list", "resource_name",
           "resource_type"] ∧
    (DeleteTagsParams c tags).lookup "action" = some "delete_resource_tag" ∧
    (DeleteTagsParams c tags).lookup "CID" = some c.CID ∧
    (DeleteTagsParams c tags).lookup "cloud_type"
        = some (Itoa tags.CloudType) ∧
    (DeleteTagsParams c tags).lookup "del_tag_list" = some tags.TagList ∧
    (DeleteTagsParams c tags).lookup "resource_name"
        = some tags.ResourceName ∧
    (DeleteTagsParams c tags).lookup "resource_type"
        = some tags.ResourceType ∧
    (DeleteTags c post tags).params = DeleteTagsParams c tags ∧
    (DeleteTags c post tags).action = "delete_resource_tag" ∧
    (DeleteTags c post tags).err
        = post "delete_resource_tag" (DeleteTagsParams c tags) :=
  ⟨rfl, rfl, rfl, rfl, rfl, rfl, rfl, rfl, rfl, rfl⟩

/-- C7: `UpdateTags` and `AddTags` both stamp the session token into CID and
post the full struct; each equals the common shape `postTagsStruct` at its
action, so the only difference between the two operations is the action
value. -/
theorem UpdateTags_eq_AddTags_up_to_action (c : Client)
    (post : String → Tags → Option String) (tags : Tags) :
    AddTags c post tags = postTagsStruct "add_resource_tags" c post tags ∧
    UpdateTags c post tags
        = postTagsStruct "update_resource_tags" c post tags ∧
    (AddTags c post tags).body
        = { tags with CID := c.CID, Action := "add_resource_tags" } ∧
    (UpdateTags c post tags).body
        = { (AddTags c post tags).body with
              Action := "update_resource_tags" } ∧
    (AddTags c post tags).err
        = post "add_resource_tags" (AddTags c post tags).body ∧
    (UpdateTags c post tags).err
        = post "update_resource_tags" (UpdateTags c post tags).body :=
  ⟨rfl, rfl, rfl, rfl, rfl, rfl⟩

/-- C9: frame property of `GetTags`: on any error, and on an accepted
response without "usr_tags", the caller's struct is unchanged; in every case
no field other than `Tags` is mutated. -/
theorem GetTags_frame (c : Client) (tags : Tags)
    (raw : Except String TagAPIResp) :
    ((GetTags c tags raw).err.isSome = true →
        (GetTags c tags raw).tags = tags) ∧
    (∀ resp, raw = Except.ok resp →
        resp.Results.lookup "usr_tags" = none →
        (GetTags c tags raw).tags = tags) ∧
    (GetTags c tags raw).tags.Action = tags.Action ∧
    (GetTags c tags raw).tags.CID = tags.CID ∧
    (GetTags c tags raw).tags.CloudType = tags.CloudType ∧
    (GetTags c tags raw).tags.ResourceType = tags.ResourceType ∧
    (GetTags c tags raw).tags.ResourceName = tags.ResourceName ∧
    (GetTags c tags raw).tags.TagList = tags.TagList ∧
    (GetTags c tags raw).tags.TagJson = tags.TagJson := by
  cases raw with
  | error e =>
    refine ⟨fun _ => rfl, fun resp2 h2 hn => ?_, rfl, rfl, rfl, rfl, rfl,
      rfl, rfl⟩
    cases h2
  | ok resp =>
    cases hret : resp.Return with
    | false =>
      refine ⟨fun _ => ?_, fun resp2 h2 hn => ?_, ?_, ?_, ?_, ?_, ?_, ?_, ?_⟩
        <;> simp [GetTags, GetAPI, BasicCheck, hret]
    | true =>
      rcases husr : resp.Results.lookup "usr_tags" with _ | m
      · refine ⟨fun _ => ?_, fun resp2 h2 hn => ?_, ?_, ?_, ?_, ?_, ?_, ?_,
          ?_⟩ <;> simp [GetTags, GetAPI, BasicCheck, hret, husr]
      · refine ⟨fun hs => ?_, fun resp2 h2 hn => ?_, ?_, ?_, ?_, ?_, ?_, ?_,
          ?_⟩
        · simp [GetTags, GetAPI, BasicCheck, hret, husr] at hs
        · injection h2 with h3
          subst h3
          rw [husr] at hn
          exact Option.noConfusion hn
        all_goals simp [GetTags, GetAPI, BasicCheck, hret, husr]

/-- C9 witness: the frame property at a failing transport, at an accepted
response without "usr_tags", and a non-`Tags` field at a tagged response. -/
theorem GetTags_frame_witness :
    (GetTags cW tagsW (Except.error "boom")).tags = tagsW ∧
    (GetTags cW tagsW (Except.ok respEmptyW)).tags = tagsW ∧
    (GetTags cW tagsW (Except.ok respW)).tags.CID = tagsW.CID :=
  ⟨(GetTags_frame cW tagsW (Except.error "boom")).1 rfl,
   (GetTags_frame cW tagsW (Except.ok respEmptyW)).2.1 respEmptyW rfl
     (by decide),
   (GetTags_frame cW tagsW (Except.ok respW)).2.2.2.1⟩

end goaviatrix

namespace aviatrix

open goaviatrix

/-- A concrete resource state used to instantiate theorems with
hypotheses. -/
def rdW : ResourceData :=
  ⟨"dev1", "dev1", "1.2.3.4", "admin", "", "x", "ios", 22, "", "", "", "",
   "", "", "", "", false, false⟩

/-- A concrete device record as the controller would return it. -/
def devW : Device :=
  ⟨"dev1", "1.2.3.4", "admin", "", "x", "ios", 22, "22", "", "", "", "", "",
   "", "", "6.8", false⟩

/-- A concrete resource state with a changed software_version on a
non-CaaG device. -/
def rdC1 : ResourceData :=
  { rdW with software_version := "7.1", hasChangeSoftwareVersion := true }

/-- A concrete freshly-imported resource state: an Id but no name. -/
def rdImportW : ResourceData :=
  { rdW with name := "" }

/-- C1 counterexample: at a concrete update with software_version changed
and is_caag false, the operation returns an error, yet a device-update call
is issued to the controller, contradicting the claim that no device-update
call is issued. -/
theorem update_rejection_still_calls_updateDevice :
    rdC1.hasChangeSoftwareVersion = true ∧ rdC1.is_caag = false ∧
    ((resourceAviatrixDeviceRegistrationUpdate rdC1 none none).err).isSome
        = true ∧
    ApiCall.updateDevice (marshalDeviceRegistrationInput rdC1)
      ∈ (resourceAviatrixDeviceRegistrationUpdate rdC1 none none).calls := by
  decide

/-- C1 (amended): for every update in which software_version has changed and
is_caag is false, the operation returns an error, leaves the resource state
unchanged, and issues no upgrade call — but the device-update call itself is
issued (it is the only call), since `UpdateDevice` runs before the CaaG
check. -/
theorem update_software_version_non_caag_rejected (d : ResourceData)
    (updateResult upgradeResult : Option String)
    (hchg : d.hasChangeSoftwareVersion = true)
    (hcaag : d.is_caag = false) :
    ((resourceAviatrixDeviceRegistrationUpdate d updateResult
        upgradeResult).err).isSome = true ∧
    (resourceAviatrixDeviceRegistrationUpdate d updateResult
        upgradeResult).state = d ∧
    (resourceAviatrixDeviceRegistrationUpdate d updateResult
        upgradeResult).calls
      = [ApiCall.updateDevice (marshalDeviceRegistrationInput d)] := by
  cases updateResult <;>
    simp [resourceAviatrixDeviceRegistrationUpdate, hchg, hcaag]

/-- C1 witness: the amended theorem at the concrete counterexample input. -/
theorem update_software_version_non_caag_rejected_witness :
    ((resourceAviatrixDeviceRegistrationUpdate rdC1 none none).err).isSome
        = true ∧
    (resourceAviatrixDeviceRegistrationUpdate rdC1 none none).state = rdC1 ∧
    (resourceAviatrixDeviceRegistrationUpdate rdC1 none none).calls
      = [ApiCall.updateDevice (marshalDeviceRegistrationInput rdC1)] :=
  update_software_version_non_caag_rejected rdC1 none none rfl rfl

/-- C4: a NotFound lookup makes the read clear the resource Id and return a
nil error; every other lookup error is returned to the caller with the
wrapping message. -/
theorem read_notFound_clears_id (d : ResourceData) :
    (resourceAviatrixDeviceRegistrationRead d
        GetDeviceResult.notFound).state.id = "" ∧
    (resourceAviatrixDeviceRegistrationRead d GetDeviceResult.notFound).err
        = none ∧
    (∀ e : String,
      (resourceAviatrixDeviceRegistrationRead d (GetDeviceResult.err e)).err
        = some ("could not find device " ++ readLookupName d ++ ": " ++ e)) :=
  ⟨rfl, rfl, fun _ => rfl⟩

/-- C8: the device name is the stable external identifier: a successful
create, a read that finds the device, and a successful update all set the
resource Id to the device's name; the read's lookup passes a device struct
whose only populated field is the name (derived from the state alone). -/
theorem name_is_external_id :
    (∀ (d : ResourceData) (r : Option String),
      (resourceAviatrixDeviceRegistrationCreate d r).err = none →
        (resourceAviatrixDeviceRegistrationCreate d r).state.id
          = (marshalDeviceRegistrationInput d).Name) ∧
    (∀ (d : ResourceData) (dev : Device),
      (resourceAviatrixDeviceRegistrationRead d
          (GetDeviceResult.found dev)).state.id = dev.Name) ∧
    (∀ (d : ResourceData) (ur gr : Option String),
      (resourceAviatrixDeviceRegistrationUpdate d ur gr).err = none →
        (resourceAviatrixDeviceRegistrationUpdate d ur gr).state.id
          = (marshalDeviceRegistrationInput d).Name) ∧
    (∀ d : ResourceData,
      readLookupDevice d = { emptyDevice with Name := readLookupName d }) ∧
    (∀ d : ResourceData, (marshalDeviceRegistrationInput d).Name = d.name) := by
  refine ⟨?_, fun d dev => rfl, ?_, fun d => rfl, fun d => rfl⟩
  · intro d r h
    cases r with
    | some e => simp [resourceAviatrixDeviceRegistrationCreate] at h
    | none => rfl
  · intro d ur gr h
    cases ur with
    | some e => simp [resourceAviatrixDeviceRegistrationUpdate] at h
    | none =>
      by_cases hc : d.hasChangeSoftwareVersion
      · by_cases hcaag : d.is_caag = false
        · simp [resourceAviatrixDeviceRegistrationUpdate, hc, hcaag] at h
        · cases gr with
          | some e =>
            simp [resourceAviatrixDeviceRegistrationUpdate, hc, hcaag] at h
          | none =>
            simp [resourceAviatrixDeviceRegistrationUpdate, hc, hcaag]
      · simp [resourceAviatrixDeviceRegistrationUpdate, hc]

/-- C8 witness: the identifier invariant at concrete create, read and update
operations. -/
theorem name_is_external_id_witness :
    (resourceAviatrixDeviceRegistrationCreate rdW none).state.id
        = (marshalDeviceRegistrationInput rdW).Name ∧
    (resourceAviatrixDeviceRegistrationRead rdW
        (GetDeviceResult.found devW)).state.id = devW.Name ∧
    (resourceAviatrixDeviceRegistrationUpdate rdW none none).state.id
        = (marshalDeviceRegistrationInput rdW).Name :=
  ⟨name_is_external_id.1 rdW none rfl,
   name_is_external_id.2.1 rdW devW,
   name_is_external_id.2.2.1 rdW none none rfl⟩

/-- C10: when the state's name is empty (import), the read looks the device
up by the existing Id: the lookup struct carries the Id as the name, the
returned Id and error coincide with those of a read whose name is that Id,
and on a found device the whole resulting state coincides. -/
theorem read_import_fallback (d : ResourceData) (h : d.name = "") :
    readLookupDevice d = { emptyDevice with Name := d.id } ∧
    (∀ res : GetDeviceResult,
      (resourceAviatrixDeviceRegistrationRead d res).state.id
          = (resourceAviatrixDeviceRegistrationRead
              { d with name := d.id } res).state.id ∧
      (resourceAviatrixDeviceRegistrationRead d res).err
          = (resourceAviatrixDeviceRegistrationRead
              { d with name := d.id } res).err) ∧
    (∀ dev : Device,
      (resourceAviatrixDeviceRegistrationRead d
          (GetDeviceResult.found dev)).state
        = (resourceAviatrixDeviceRegistrationRead
            { d with name := d.id } (GetDeviceResult.found dev)).state) := by
  have hname : readLookupName d = d.id := by simp [readLookupName, h]
  have hname2 : readLookupName { d with name := d.id } = d.id := by
    by_cases hid : d.id = "" <;> simp [readLookupName, hid]
  refine ⟨?_, ?_, ?_⟩
  · simp [readLookupDevice, hname]
  · intro res
    cases res <;>
      simp [resourceAviatrixDeviceRegistrationRead, hname, hname2, h]
  · intro dev
    by_cases hid : d.id = "" <;>
      simp [resourceAviatrixDeviceRegistrationRead, h, hid]

/-- C10 witness: the import fallback at a concrete state with an Id and an
empty name. -/
theorem read_import_fallback_witness :
    readLookupDevice rdImportW = { emptyDevice with Name := rdImportW.id } ∧
    (resourceAviatrixDeviceRegistrationRead rdImportW
        GetDeviceResult.notFound).err
      = (resourceAviatrixDeviceRegistrationRead
          { rdImportW with name := rdImportW.id }
          GetDeviceResult.notFound).err :=
  ⟨(read_import_fallback rdImportW rfl).1,
   ((read_import_fallback rdImportW rfl).2.1 GetDeviceResult.notFound).2⟩

end aviatrix
